import Mathlib

/-!
Shallow embedding of the DataNet Plus lead-capture API
(`server/server.js` in its observed variants):

* variant A: `consent` required, no notifier, response `{ ok, id }`;
* the SendGrid variants (two files with the same handler logic):
  no `consent`, `SENDGRID_API_KEY` guard, response `{ ok, id, mailed }`;
* the SMTP / nodemailer variant: `consent` required, `buildTransport`
  guard, response `{ ok, id, mailed }`.

External effects (the Mongo store and the mail transport) are passed as
explicit parameters; the handler additionally returns the trace of
side-effect events it performed, so claims about "no store write" and
"the notifier is never invoked" are statements about that trace.
-/

namespace DataNetPlus

/-- JVal: JavaScript runtime values as they can appear in the parsed
JSON body for the `consent` field (the handler compares `consent !== true`,
a strict comparison that 1, "true" etc. fail). -/
inductive JVal where
  | undef
  | null
  | bool (b : Bool)
  | num (n : Int)
  | str (s : String)
deriving DecidableEq

/-- Strict comparison `v === true` used by the consent check. -/
def JVal.isTrue : JVal → Bool
  | .bool true => true
  | _ => false

/-- The JS `\s` character class (ASCII whitespace plus the common
Unicode space characters). -/
def isJsWs (c : Char) : Bool :=
  c = ' ' || c = '\t' || c = '\n' || c = '\r' || c = '\x0b' || c = '\x0c' ||
  c = '\u00A0' || c = '\u2028' || c = '\u2029' || c = '\uFEFF'

/-- JS `String.prototype.trim`: drop leading and trailing whitespace. -/
def jsTrim (s : String) : String :=
  ⟨((s.data.dropWhile isJsWs).reverse.dropWhile isJsWs).reverse⟩

/-- JS `String.prototype.toLowerCase` (ASCII model). -/
def jsLower (s : String) : String := ⟨s.data.map Char.toLower⟩

/-- JS truthiness of a string-or-undefined value: `!x` is false exactly
when `x` is a non-empty string. -/
def truthyS : Option String → Bool
  | none => false
  | some s => s != ""

/-- JS `x || d` for a string-or-undefined `x` and string default `d`. -/
def orStr (x : Option String) (d : String) : String :=
  match x with
  | none => d
  | some s => if s != "" then s else d

/-- One character of the class `[^@\s]`. -/
def isEmailChar (c : Char) : Bool := c != '@' && !(isJsWs c)

/-- The test `/^[^@\s]+@[^@\s]+\.[^@\s]+$/.test s`: a non-empty local
part of `[^@\s]` characters, one `@`, then a domain of `[^@\s]`
characters containing a `.` that is neither its first nor its last
character.  (Since `[^@\s]` excludes `@`, a matching string has exactly
one `@`, and the greedy local part is the maximal `[^@\s]` run.) -/
def emailRegexTest (s : String) : Bool :=
  match s.data.dropWhile isEmailChar with
  | '@' :: d =>
      !(s.data.takeWhile isEmailChar).isEmpty &&
      d.all isEmailChar &&
      ((d.drop 1).dropLast).contains '.'
  | _ => false

/-- Replacement performed by `escapeHtml` on one character. -/
def escapeChar (c : Char) : String :=
  if c = '&' then "&amp;"
  else if c = '<' then "&lt;"
  else if c = '>' then "&gt;"
  else if c = '"' then "&quot;"
  else if c = '\'' then "&#039;"
  else ⟨[c]⟩

def escapeList : List Char → String
  | [] => ""
  | c :: cs => escapeChar c ++ escapeList cs

/-- The `escapeHtml` utility from the Utils section of the server. -/
def escapeHtml (s : String) : String := escapeList s.data

def nl2brList : List Char → String
  | [] => ""
  | c :: cs => (if c = '\n' then "<br/>" else (⟨[c]⟩ : String)) ++ nl2brList cs

/-- The `nl2br` utility: every newline becomes a literal break tag. -/
def nl2br (s : String) : String := nl2brList s.data

/-- The parsed JSON request body as destructured by the handlers:
string-valued fields are string-or-undefined, `consent` is an arbitrary
JSON value (the strict `=== true` check is about its exact shape). -/
structure Body where
  name : Option String := none
  email : Option String := none
  phone : Option String := none
  company : Option String := none
  message : Option String := none
  consent : JVal := .undef
  source : Option String := none
deriving DecidableEq

/-- The record object passed to `Lead.create`. -/
structure CreateRec where
  name : Option String
  email : Option String
  phone : Option String
  company : Option String
  message : Option String
  consent : Option Bool
  source : Option String
deriving DecidableEq

/-- A document as stored by Mongo after the `LeadSchema` setters,
defaults and validators have run. -/
structure StoredLead where
  id : String
  name : String
  email : String
  phone : Option String
  company : Option String
  message : String
  consent : Option Bool
  source : String
deriving DecidableEq

/-- A required String schema path with `trim` and `maxlength`: fails on
`undefined` and on the empty string after trimming (mongoose `required`
rejects the empty string for String paths; `trim` is a setter that runs
first; `maxlength` is a validator on the trimmed value). -/
def reqStr (v : Option String) (maxLen : Nat) : Except Unit String :=
  match v with
  | none => .error ()
  | some s =>
      let t := jsTrim s
      if t = "" then .error ()
      else if maxLen < t.data.length then .error ()
      else .ok t

/-- The `email` path: `required`, `trim`, `lowercase`, `maxlength`. -/
def reqEmail (v : Option String) (maxLen : Nat) : Except Unit String :=
  match v with
  | none => .error ()
  | some s =>
      let t := jsLower (jsTrim s)
      if t = "" then .error ()
      else if maxLen < t.data.length then .error ()
      else .ok t

/-- An optional String schema path with `trim` and `maxlength`. -/
def optStr (v : Option String) (maxLen : Nat) : Except Unit (Option String) :=
  match v with
  | none => .ok none
  | some s =>
      let t := jsTrim s
      if maxLen < t.data.length then .error ()
      else .ok (some t)

/-- The `source` path: `trim`, default `"web"` when undefined, no
`maxlength`. -/
def sourceField (v : Option String) : String :=
  match v with
  | none => "web"
  | some s => jsTrim s

/-- `Lead.create` under the `LeadSchema`: applies setters and defaults,
runs the validators, and either persists a document under the fresh
identifier `newId` or rejects (mongoose `ValidationError`, which the
handler's `catch` turns into a 500).  `requireConsent` is true for the
schemas that declare `consent: { type: Boolean, required: true }`. -/
def mongooseCreate (requireConsent : Bool) (newId : String) (r : CreateRec) :
    Except Unit StoredLead :=
  (reqStr r.name 100).bind fun n =>
  (reqEmail r.email 200).bind fun e =>
  (reqStr r.message 5000).bind fun m =>
  (optStr r.phone 50).bind fun p =>
  (optStr r.company 120).bind fun c =>
  if requireConsent && r.consent.isNone then .error ()
  else .ok { id := newId, name := n, email := e, phone := p, company := c,
             message := m, consent := r.consent, source := sourceField r.source }

/-- The HTTP response produced by the lead handler (the JSON fields that
occur across the variants; `none` means the field is absent from the
body). -/
structure Response where
  status : Nat
  ok : Bool
  error : Option String := none
  id : Option String := none
  mailed : Option Bool := none
deriving DecidableEq

def respMissing : Response :=
  { status := 400, ok := false, error := some "Missing required fields" }

def respInvalidEmail : Response :=
  { status := 400, ok := false, error := some "Invalid email" }

def respServerError : Response :=
  { status := 500, ok := false, error := some "Server error" }

/-- Side-effect events performed by a handler run, in order. -/
inductive Event where
  | storeCreate (r : CreateRec)
  | mailSend
deriving DecidableEq

/-- The validation guard of the consent-requiring variants:
`!name || !email || !message || consent !== true`. -/
def missingConsentVariant (b : Body) : Bool :=
  !(truthyS b.name) || !(truthyS b.email) || !(truthyS b.message) ||
  !(JVal.isTrue b.consent)

/-- The validation guard of the SendGrid variants:
`!name || !email || !message`. -/
def missingSG (b : Body) : Bool :=
  !(truthyS b.name) || !(truthyS b.email) || !(truthyS b.message)

/-- The email test as called by every handler on the raw body value. -/
def emailOk (b : Body) : Bool := emailRegexTest (b.email.getD "")

/-- The record the SMTP-variant handler passes to `Lead.create`:
raw `name`, `email`, `message`; `phone: phone || ''`;
`company: company || ''`; `consent: true`; `source: source || 'web'`. -/
def recOfSMTP (b : Body) : CreateRec :=
  { name := b.name, email := b.email,
    phone := some (orStr b.phone ""), company := some (orStr b.company ""),
    message := b.message, consent := some true,
    source := some (orStr b.source "web") }

/-- The record the SendGrid-variant handlers pass to `Lead.create`
(same as the SMTP variant but with no `consent` key). -/
def recOfSG (b : Body) : CreateRec :=
  { name := b.name, email := b.email,
    phone := some (orStr b.phone ""), company := some (orStr b.company ""),
    message := b.message, consent := none,
    source := some (orStr b.source "web") }

/-- The record variant A passes to `Lead.create`: all fields raw, no
handler-side defaults (`consent` is the raw body value, which the guard
has already constrained to be exactly `true` on this path). -/
def recOfA (b : Body) : CreateRec :=
  { name := b.name, email := b.email,
    phone := b.phone, company := b.company,
    message := b.message,
    consent := match b.consent with | .bool v => some v | _ => none,
    source := b.source }

/-- The SMTP transport object built by `buildTransport`. -/
structure SmtpTransport where
  host : String
  port : Int
  secure : Bool
  user : String
  pass : String
deriving DecidableEq

def digitsVal (cs : List Char) : Option Nat :=
  let ds := cs.takeWhile Char.isDigit
  if ds.isEmpty then none
  else some (ds.foldl (fun a c => a * 10 + (c.toNat - 48)) 0)

/-- JS `parseInt(s, 10)`: skip leading whitespace, optional sign, then
a non-empty run of decimal digits (trailing garbage ignored); `none`
models `NaN`. -/
def parseInt10 (s : String) : Option Int :=
  match s.data.dropWhile isJsWs with
  | '-' :: rest => (digitsVal rest).map (fun n => -(n : Int))
  | '+' :: rest => (digitsVal rest).map (fun n => (n : Int))
  | rest => (digitsVal rest).map (fun n => (n : Int))

/-- `buildTransport` of the SMTP variant: reads `SMTP_HOST`, `SMTP_PORT`
(defaulted to `'587'` through `||`), `SMTP_USER`, `SMTP_PASS`; returns
`null` when `!host || !port || !user || !pass` (for the number `port`,
falsy means `NaN` or `0`). -/
def buildTransport (host portEnv user pass : Option String) :
    Option SmtpTransport :=
  let port : Option Int := parseInt10 (orStr portEnv "587")
  if !(truthyS host) ||
     !(match port with | none => false | some p => p != 0) ||
     !(truthyS user) || !(truthyS pass) then
    none
  else
    some { host := host.getD "", port := port.getD 0,
           secure := port.getD 0 == 465, user := user.getD "",
           pass := pass.getD "" }

/-- `SG_KEY = process.env.SENDGRID_API_KEY || ''`. -/
def sgKeyOf (keyEnv : Option String) : String := keyEnv.getD ""

/-- The `POST /api/lead` handler of the SMTP / nodemailer variant.
`store` is the Lead Store `create` call, `mailer` the process-wide
transport built at startup, and `sendOk` tells whether a send attempt
through the transport resolves (`false` = the transport rejects; the
handler catches that, logs, and leaves `mailed` false).  Returns the
HTTP response together with the ordered trace of effect events. -/
def handleLeadSMTP (store : CreateRec → Except Unit StoredLead)
    (mailer : Option SmtpTransport) (sendOk : Bool) (b : Body) :
    Response × List Event :=
  if missingConsentVariant b then (respMissing, [])
  else if !(emailOk b) then (respInvalidEmail, [])
  else
    match store (recOfSMTP b) with
    | .error _ => (respServerError, [.storeCreate (recOfSMTP b)])
    | .ok doc =>
        if mailer.isSome then
          ({ status := 201, ok := true, id := some doc.id, mailed := some sendOk },
           [.storeCreate (recOfSMTP b), .mailSend])
        else
          ({ status := 201, ok := true, id := some doc.id, mailed := some false },
           [.storeCreate (recOfSMTP b)])

/-- The `POST /api/lead` handler of the two SendGrid variants (their
handler logic is identical).  `sgKey` is the process-wide `SG_KEY`. -/
def handleLeadSG (store : CreateRec → Except Unit StoredLead)
    (sgKey : String) (sendOk : Bool) (b : Body) :
    Response × List Event :=
  if missingSG b then (respMissing, [])
  else if !(emailOk b) then (respInvalidEmail, [])
  else
    match store (recOfSG b) with
    | .error _ => (respServerError, [.storeCreate (recOfSG b)])
    | .ok doc =>
        if sgKey != "" then
          ({ status := 201, ok := true, id := some doc.id, mailed := some sendOk },
           [.storeCreate (recOfSG b), .mailSend])
        else
          ({ status := 201, ok := true, id := some doc.id, mailed := some false },
           [.storeCreate (recOfSG b)])

/-- The `POST /api/lead` handler of variant A (consent required, no
notifier at all; success body `{ ok: true, id: doc._id }`). -/
def handleLeadA (store : CreateRec → Except Unit StoredLead) (b : Body) :
    Response × List Event :=
  if missingConsentVariant b then (respMissing, [])
  else if !(emailOk b) then (respInvalidEmail, [])
  else
    match store (recOfA b) with
    | .error _ => (respServerError, [.storeCreate (recOfA b)])
    | .ok doc =>
        ({ status := 201, ok := true, id := some doc.id }, [.storeCreate (recOfA b)])

/-- JS truthiness of an arbitrary value (the `consent ? 'Yes' : 'No'`
ternary in the mail renderings). -/
def JVal.truthy : JVal → Bool
  | .undef => false
  | .null => false
  | .bool b => b
  | .num n => n != 0
  | .str s => s != ""

/-- The plain-text rendering of the notification email in the SMTP
variant: the `[...].join('\n')` template with the raw field values
(`submittedIso` stands for `new Date().toISOString()`). -/
def renderTextSMTP (b : Body) (submittedIso : String) : String :=
  "New enquiry from DataNet Plus website" ++ "\n" ++ "\n" ++
  "Name: " ++ b.name.getD "" ++ "\n" ++
  "Email: " ++ b.email.getD "" ++ "\n" ++
  "Phone: " ++ orStr b.phone "-" ++ "\n" ++
  "Company: " ++ orStr b.company "-" ++ "\n" ++
  "Message:" ++ "\n" ++
  b.message.getD "" ++ "\n" ++ "\n" ++
  "Consent: " ++ (if JVal.truthy b.consent then "Yes" else "No") ++ "\n" ++
  "Source: " ++ orStr b.source "web" ++ "\n" ++
  "Submitted: " ++ submittedIso

/-- The HTML rendering of the notification email in the SMTP variant
(template whitespace between tags elided; every user-supplied value
goes through `escapeHtml`, and the message additionally through
`nl2br` applied after `escapeHtml`). -/
def renderHtmlSMTP (b : Body) (submittedIso : String) : String :=
  "<div style=\"font-family:system-ui,-apple-system,Segoe UI,Roboto,Arial,sans-serif;line-height:1.5\">" ++
  "<h2 style=\"margin:0 0 8px\">New enquiry from DataNet Plus website</h2>" ++
  "<p><strong>Name:</strong> " ++ escapeHtml (b.name.getD "") ++ "<br/>" ++
  "<strong>Email:</strong> " ++ escapeHtml (b.email.getD "") ++ "<br/>" ++
  "<strong>Phone:</strong> " ++ escapeHtml (orStr b.phone "-") ++ "<br/>" ++
  "<strong>Company:</strong> " ++ escapeHtml (orStr b.company "-") ++ "</p>" ++
  "<p><strong>Message:</strong><br/>" ++ nl2br (escapeHtml (b.message.getD "")) ++ "</p>" ++
  "<p><strong>Consent:</strong> " ++ (if JVal.truthy b.consent then "Yes" else "No") ++ "<br/>" ++
  "<strong>Source:</strong> " ++ escapeHtml (orStr b.source "web") ++ "<br/>" ++
  "<strong>Submitted:</strong> " ++ submittedIso ++ "</p></div>"

/-- The plain-text rendering in the SendGrid variants (same template
without the Consent line). -/
def renderTextSG (b : Body) (submittedIso : String) : String :=
  "New enquiry from DataNet Plus website" ++ "\n" ++ "\n" ++
  "Name: " ++ b.name.getD "" ++ "\n" ++
  "Email: " ++ b.email.getD "" ++ "\n" ++
  "Phone: " ++ orStr b.phone "-" ++ "\n" ++
  "Company: " ++ orStr b.company "-" ++ "\n" ++
  "Message:" ++ "\n" ++
  b.message.getD "" ++ "\n" ++ "\n" ++
  "Source: " ++ orStr b.source "web" ++ "\n" ++
  "Submitted: " ++ submittedIso

/-- The HTML rendering in the SendGrid variants (same template without
the Consent line). -/
def renderHtmlSG (b : Body) (submittedIso : String) : String :=
  "<div style=\"font-family:system-ui,-apple-system,Segoe UI,Roboto,Arial,sans-serif;line-height:1.5\">" ++
  "<h2 style=\"margin:0 0 8px\">New enquiry from DataNet Plus website</h2>" ++
  "<p><strong>Name:</strong> " ++ escapeHtml (b.name.getD "") ++ "<br/>" ++
  "<strong>Email:</strong> " ++ escapeHtml (b.email.getD "") ++ "<br/>" ++
  "<strong>Phone:</strong> " ++ escapeHtml (orStr b.phone "-") ++ "<br/>" ++
  "<strong>Company:</strong> " ++ escapeHtml (orStr b.company "-") ++ "</p>" ++
  "<p><strong>Message:</strong><br/>" ++ nl2br (escapeHtml (b.message.getD "")) ++ "</p>" ++
  "<p><strong>Source:</strong> " ++ escapeHtml (orStr b.source "web") ++ "<br/>" ++
  "<strong>Submitted:</strong> " ++ submittedIso ++ "</p></div>"

/-- Everything of the SMTP text rendering before the verbatim message. -/
def textBeforeMsgSMTP (b : Body) : String :=
  "New enquiry from DataNet Plus website" ++ "\n" ++ "\n" ++
  "Name: " ++ b.name.getD "" ++ "\n" ++
  "Email: " ++ b.email.getD "" ++ "\n" ++
  "Phone: " ++ orStr b.phone "-" ++ "\n" ++
  "Company: " ++ orStr b.company "-" ++ "\n" ++
  "Message:" ++ "\n"

/-- Everything of the SMTP text rendering after the verbatim message. -/
def textAfterMsgSMTP (b : Body) (submittedIso : String) : String :=
  "\n" ++ "\n" ++
  "Consent: " ++ (if JVal.truthy b.consent then "Yes" else "No") ++ "\n" ++
  "Source: " ++ orStr b.source "web" ++ "\n" ++
  "Submitted: " ++ submittedIso

/-- Everything of the SMTP HTML rendering before the escaped message. -/
def htmlBeforeMsgSMTP (b : Body) : String :=
  "<div style=\"font-family:system-ui,-apple-system,Segoe UI,Roboto,Arial,sans-serif;line-height:1.5\">" ++
  "<h2 style=\"margin:0 0 8px\">New enquiry from DataNet Plus website</h2>" ++
  "<p><strong>Name:</strong> " ++ escapeHtml (b.name.getD "") ++ "<br/>" ++
  "<strong>Email:</strong> " ++ escapeHtml (b.email.getD "") ++ "<br/>" ++
  "<strong>Phone:</strong> " ++ escapeHtml (orStr b.phone "-") ++ "<br/>" ++
  "<strong>Company:</strong> " ++ escapeHtml (orStr b.company "-") ++ "</p>" ++
  "<p><strong>Message:</strong><br/>"

/-- Everything of the SMTP HTML rendering after the escaped message. -/
def htmlAfterMsgSMTP (b : Body) (submittedIso : String) : String :=
  "</p>" ++
  "<p><strong>Consent:</strong> " ++ (if JVal.truthy b.consent then "Yes" else "No") ++ "<br/>" ++
  "<strong>Source:</strong> " ++ escapeHtml (orStr b.source "web") ++ "<br/>" ++
  "<strong>Submitted:</strong> " ++ submittedIso ++ "</p></div>"

/-- Everything of the SendGrid text rendering before the verbatim
message (identical to the SMTP one). -/
def textBeforeMsgSG (b : Body) : String := textBeforeMsgSMTP b

/-- Everything of the SendGrid text rendering after the verbatim message. -/
def textAfterMsgSG (b : Body) (submittedIso : String) : String :=
  "\n" ++ "\n" ++
  "Source: " ++ orStr b.source "web" ++ "\n" ++
  "Submitted: " ++ submittedIso

/-- Everything of the SendGrid HTML rendering before the escaped
message (identical to the SMTP one). -/
def htmlBeforeMsgSG (b : Body) : String := htmlBeforeMsgSMTP b

/-- Everything of the SendGrid HTML rendering after the escaped message. -/
def htmlAfterMsgSG (b : Body) (submittedIso : String) : String :=
  "</p>" ++
  "<p><strong>Source:</strong> " ++ escapeHtml (orStr b.source "web") ++ "<br/>" ++
  "<strong>Submitted:</strong> " ++ submittedIso ++ "</p></div>"

def splitCommaAux : List Char → List Char → List String
  | [], acc => [⟨acc.reverse⟩]
  | c :: cs, acc =>
      if c = ',' then (⟨acc.reverse⟩ : String) :: splitCommaAux cs []
      else splitCommaAux cs (c :: acc)

/-- JS `String.prototype.split(',')`: the comma-separated pieces; on
the empty string it yields `[""]`. -/
def jsSplitComma (s : String) : List String := splitCommaAux s.data []

/-- `ALLOWED_ORIGINS` parsing shared by the variants:
`(process.env.ALLOWED_ORIGINS || '').split(',').map(s => s.trim()).filter(Boolean)`. -/
def parseAllowedOrigins (raw : String) : List String :=
  ((jsSplitComma raw).map jsTrim).filter (fun s => s != "")

/-- The cors `origin` callback of the variants without built-in allow
patterns (variant A and the SMTP variant; the second SendGrid file adds
regex `ALLOW_PATTERNS`): requests without an `Origin` header are always
allowed; otherwise allowed iff `allowed.length === 0` or the list
contains the origin exactly. -/
def corsOriginAllows (allowedList : List String) (origin : Option String) : Bool :=
  match origin with
  | none => true
  | some o => allowedList.length == 0 || allowedList.contains o

/-- A well-formed example submission (the spec's Ada example). -/
def bAda : Body :=
  { name := some "Ada", email := some "ada@example.com",
    message := some "Hello", consent := .bool true }

/-- A store stub that always rejects (store unreachable). -/
def failStore : CreateRec → Except Unit StoredLead := fun _ => .error ()

/-- A store stub that always acknowledges with a fixed document. -/
def okStore : CreateRec → Except Unit StoredLead := fun r =>
  .ok { id := "doc-1", name := r.name.getD "", email := r.email.getD "",
        phone := r.phone, company := r.company, message := r.message.getD "",
        consent := r.consent, source := (r.source.getD "web") }

/-- A transport as built from a complete SMTP configuration. -/
def tEx : SmtpTransport :=
  { host := "smtp.example.com", port := 587, secure := false,
    user := "u", pass := "p" }

/-! ### Helper lemmas -/

theorem isTrue_iff (v : JVal) : JVal.isTrue v = true ↔ v = JVal.bool true := by
  cases v with
  | undef => simp [JVal.isTrue]
  | null => simp [JVal.isTrue]
  | bool b => cases b <;> simp [JVal.isTrue]
  | num n => simp [JVal.isTrue]
  | str s => simp [JVal.isTrue]

theorem smtp_eq_missing (store : CreateRec → Except Unit StoredLead)
    (mailer : Option SmtpTransport) (sendOk : Bool) (b : Body)
    (h : missingConsentVariant b = true) :
    handleLeadSMTP store mailer sendOk b = (respMissing, []) := by
  unfold handleLeadSMTP
  simp [h]

theorem smtp_eq_invalid (store : CreateRec → Except Unit StoredLead)
    (mailer : Option SmtpTransport) (sendOk : Bool) (b : Body)
    (h1 : missingConsentVariant b = false) (h2 : emailOk b = false) :
    handleLeadSMTP store mailer sendOk b = (respInvalidEmail, []) := by
  unfold handleLeadSMTP
  simp [h1, h2]

theorem smtp_eq_storeFail (store : CreateRec → Except Unit StoredLead)
    (mailer : Option SmtpTransport) (sendOk : Bool) (b : Body)
    (h1 : missingConsentVariant b = false) (h2 : emailOk b = true)
    (h3 : store (recOfSMTP b) = .error ()) :
    handleLeadSMTP store mailer sendOk b =
      (respServerError, [.storeCreate (recOfSMTP b)]) := by
  unfold handleLeadSMTP
  simp [h1, h2, h3]

theorem smtp_eq_ok (store : CreateRec → Except Unit StoredLead)
    (mailer : Option SmtpTransport) (sendOk : Bool) (b : Body) (doc : StoredLead)
    (h1 : missingConsentVariant b = false) (h2 : emailOk b = true)
    (h3 : store (recOfSMTP b) = .ok doc) :
    handleLeadSMTP store mailer sendOk b =
      if mailer.isSome then
        ({ status := 201, ok := true, id := some doc.id, mailed := some sendOk },
         [.storeCreate (recOfSMTP b), .mailSend])
      else
        ({ status := 201, ok := true, id := some doc.id, mailed := some false },
         [.storeCreate (recOfSMTP b)]) := by
  unfold handleLeadSMTP
  simp [h1, h2, h3]

theorem sg_eq_missing (store : CreateRec → Except Unit StoredLead)
    (sgKey : String) (sendOk : Bool) (b : Body)
    (h : missingSG b = true) :
    handleLeadSG store sgKey sendOk b = (respMissing, []) := by
  unfold handleLeadSG
  simp [h]

theorem sg_eq_invalid (store : CreateRec → Except Unit StoredLead)
    (sgKey : String) (sendOk : Bool) (b : Body)
    (h1 : missingSG b = false) (h2 : emailOk b = false) :
    handleLeadSG store sgKey sendOk b = (respInvalidEmail, []) := by
  unfold handleLeadSG
  simp [h1, h2]

theorem sg_eq_storeFail (store : CreateRec → Except Unit StoredLead)
    (sgKey : String) (sendOk : Bool) (b : Body)
    (h1 : missingSG b = false) (h2 : emailOk b = true)
    (h3 : store (recOfSG b) = .error ()) :
    handleLeadSG store sgKey sendOk b =
      (respServerError, [.storeCreate (recOfSG b)]) := by
  unfold handleLeadSG
  simp [h1, h2, h3]

theorem sg_eq_ok (store : CreateRec → Except Unit StoredLead)
    (sgKey : String) (sendOk : Bool) (b : Body) (doc : StoredLead)
    (h1 : missingSG b = false) (h2 : emailOk b = true)
    (h3 : store (recOfSG b) = .ok doc) :
    handleLeadSG store sgKey sendOk b =
      if sgKey != "" then
        ({ status := 201, ok := true, id := some doc.id, mailed := some sendOk },
         [.storeCreate (recOfSG b), .mailSend])
      else
        ({ status := 201, ok := true, id := some doc.id, mailed := some false },
         [.storeCreate (recOfSG b)]) := by
  unfold handleLeadSG
  simp [h1, h2, h3]

theorem a_eq_missing (store : CreateRec → Except Unit StoredLead) (b : Body)
    (h : missingConsentVariant b = true) :
    handleLeadA store b = (respMissing, []) := by
  unfold handleLeadA
  simp [h]

theorem a_eq_invalid (store : CreateRec → Except Unit StoredLead) (b : Body)
    (h1 : missingConsentVariant b = false) (h2 : emailOk b = false) :
    handleLeadA store b = (respInvalidEmail, []) := by
  unfold handleLeadA
  simp [h1, h2]

theorem a_eq_storeFail (store : CreateRec → Except Unit StoredLead) (b : Body)
    (h1 : missingConsentVariant b = false) (h2 : emailOk b = true)
    (h3 : store (recOfA b) = .error ()) :
    handleLeadA store b = (respServerError, [.storeCreate (recOfA b)]) := by
  unfold handleLeadA
  simp [h1, h2, h3]

theorem a_eq_ok (store : CreateRec → Except Unit StoredLead) (b : Body)
    (doc : StoredLead)
    (h1 : missingConsentVariant b = false) (h2 : emailOk b = true)
    (h3 : store (recOfA b) = .ok doc) :
    handleLeadA store b =
      ({ status := 201, ok := true, id := some doc.id }, [.storeCreate (recOfA b)]) := by
  unfold handleLeadA
  simp [h1, h2, h3]

theorem escapeChar_no_angle (c : Char) :
    '<' ∉ (escapeChar c).data ∧ '>' ∉ (escapeChar c).data := by
  unfold escapeChar
  split_ifs with h1 h2 h3 h4 h5
  · exact ⟨by decide, by decide⟩
  · exact ⟨by decide, by decide⟩
  · exact ⟨by decide, by decide⟩
  · exact ⟨by decide, by decide⟩
  · exact ⟨by decide, by decide⟩
  · exact ⟨fun h => h2 (List.mem_singleton.mp h).symm,
           fun h => h3 (List.mem_singleton.mp h).symm⟩

theorem escapeList_no_angle (cs : List Char) :
    '<' ∉ (escapeList cs).data ∧ '>' ∉ (escapeList cs).data := by
  induction cs with
  | nil => exact ⟨by decide, by decide⟩
  | cons c cs ih =>
      have hc := escapeChar_no_angle c
      simp only [escapeList, String.data_append, List.mem_append]
      constructor
      · rintro (h | h)
        · exact hc.1 h
        · exact ih.1 h
      · rintro (h | h)
        · exact hc.2 h
        · exact ih.2 h

/-- The output of `escapeHtml` never contains a raw angle bracket, so a
literal tag in the submitted text cannot survive into the HTML. -/
theorem escapeHtml_no_angle (m : String) :
    '<' ∉ (escapeHtml m).data ∧ '>' ∉ (escapeHtml m).data :=
  escapeList_no_angle m.data

theorem reqStr_ok (v : Option String) (m : Nat) (t : String)
    (h : reqStr v m = .ok t) : t = jsTrim (v.getD "") ∧ t ≠ "" := by
  cases v with
  | none => exact absurd h (by simp [reqStr])
  | some s =>
      simp only [reqStr] at h
      split_ifs at h with h1 h2
      simp_all

theorem reqEmail_ok (v : Option String) (m : Nat) (t : String)
    (h : reqEmail v m = .ok t) : t = jsLower (jsTrim (v.getD "")) := by
  cases v with
  | none => exact absurd h (by simp [reqEmail])
  | some s =>
      simp only [reqEmail] at h
      split_ifs at h with h1 h2
      simp_all

theorem mongooseCreate_ok_parts (req : Bool) (newId : String) (r : CreateRec)
    (doc : StoredLead) (h : mongooseCreate req newId r = .ok doc) :
    ∃ n e m p c, reqStr r.name 100 = .ok n ∧ reqEmail r.email 200 = .ok e ∧
      reqStr r.message 5000 = .ok m ∧ optStr r.phone 50 = .ok p ∧
      optStr r.company 120 = .ok c ∧
      doc = { id := newId, name := n, email := e, phone := p, company := c,
              message := m, consent := r.consent,
              source := sourceField r.source } := by
  unfold mongooseCreate at h
  cases h1 : reqStr r.name 100 with
  | error u => rw [h1] at h; exact absurd h (by simp [Except.bind])
  | ok n =>
      rw [h1] at h
      simp only [Except.bind] at h
      cases h2 : reqEmail r.email 200 with
      | error u => rw [h2] at h; exact absurd h (by simp [Except.bind])
      | ok e =>
          rw [h2] at h
          simp only [Except.bind] at h
          cases h3 : reqStr r.message 5000 with
          | error u => rw [h3] at h; exact absurd h (by simp [Except.bind])
          | ok m =>
              rw [h3] at h
              simp only [Except.bind] at h
              cases h4 : optStr r.phone 50 with
              | error u => rw [h4] at h; exact absurd h (by simp [Except.bind])
              | ok p =>
                  rw [h4] at h
                  simp only [Except.bind] at h
                  cases h5 : optStr r.company 120 with
                  | error u => rw [h5] at h; exact absurd h (by simp [Except.bind])
                  | ok c =>
                      rw [h5] at h
                      simp only [Except.bind] at h
                      split_ifs at h with hc
                      exact ⟨n, e, m, p, c, rfl, rfl, rfl, rfl, rfl,
                        ((Except.ok.injEq _ _).mp h).symm⟩

/-- If the `message` path rejects, `Lead.create` rejects (whatever the
other paths do). -/
theorem mongooseCreate_msgFail (req : Bool) (newId : String) (r : CreateRec)
    (h : reqStr r.message 5000 = .error ()) :
    mongooseCreate req newId r = .error () := by
  cases hres : mongooseCreate req newId r with
  | error u => cases u; rfl
  | ok doc =>
      obtain ⟨n, e, m, p, c, _, _, h3, _⟩ := mongooseCreate_ok_parts req newId r doc hres
      rw [h] at h3
      exact absurd h3 (by simp)

/-- If the `name` path rejects, `Lead.create` rejects. -/
theorem mongooseCreate_nameFail (req : Bool) (newId : String) (r : CreateRec)
    (h : reqStr r.name 100 = .error ()) :
    mongooseCreate req newId r = .error () := by
  unfold mongooseCreate
  rw [h]
  rfl

/-- A string accepted by the email test splits as a non-empty `@`-free
local part, the `@`, and a remainder containing a `.`. -/
theorem emailRegexTest_shape (e : String) (h : emailRegexTest e = true) :
    ∃ l d, e.data = l ++ '@' :: d ∧ l ≠ [] ∧ '.' ∈ d := by
  unfold emailRegexTest at h
  split at h
  next d heq =>
    refine ⟨e.data.takeWhile isEmailChar, d, ?_, ?_, ?_⟩
    · conv_lhs => rw [← List.takeWhile_append_dropWhile isEmailChar e.data]
      rw [heq]
    · intro hnil
      rw [hnil] at h
      simp at h
    · simp only [Bool.and_eq_true] at h
      have hc : '.' ∈ (d.drop 1).dropLast := by
        have := h.2
        simpa using this
      exact List.drop_subset 1 d (List.dropLast_subset _ hc)
  next => exact absurd h (by simp)

/-- A string accepted by the email test contains no whitespace
character (all three regex classes exclude `\s`). -/
theorem emailRegexTest_no_ws (e : String) (h : emailRegexTest e = true) :
    ∀ c ∈ e.data, isJsWs c = false := by
  unfold emailRegexTest at h
  split at h
  next d heq =>
    simp only [Bool.and_eq_true] at h
    intro c hc
    rw [← List.takeWhile_append_dropWhile isEmailChar e.data, heq] at hc
    have emailChar_not_ws : ∀ x : Char, isEmailChar x = true → isJsWs x = false := by
      intro x hx
      have := (Bool.and_eq_true _ _).mp hx
      simpa using this.2
    rcases List.mem_append.mp hc with h1 | h2
    · exact emailChar_not_ws c (List.mem_takeWhile_imp h1)
    · rcases List.mem_cons.mp h2 with h3 | h4
      · rw [h3]; decide
      · exact emailChar_not_ws c (List.all_eq_true.mp h.1.2 c h4)
  next => exact absurd h (by simp)

/-! ### Claim theorems -/

/-- C1: when the Lead Store `create` call fails, the `POST /api/lead`
handler (SMTP and SendGrid variants) responds HTTP 500 with body
`{ ok:false, error:"Server error" }` and the notifier send is never
invoked; in general, a send event can occur only when `create` has
returned successfully, so notification is attempted only after a
successful create. -/
theorem storeFailure_500_and_notify_only_after_create :
    (∀ (store : CreateRec → Except Unit StoredLead) (mailer : Option SmtpTransport)
        (sgKey : String) (sendOk : Bool) (b : Body),
      (∀ r, store r = .error ()) →
      Event.mailSend ∉ (handleLeadSMTP store mailer sendOk b).2 ∧
      Event.mailSend ∉ (handleLeadSG store sgKey sendOk b).2 ∧
      (missingConsentVariant b = false → emailOk b = true →
        handleLeadSMTP store mailer sendOk b =
          (respServerError, [.storeCreate (recOfSMTP b)])) ∧
      (missingSG b = false → emailOk b = true →
        handleLeadSG store sgKey sendOk b =
          (respServerError, [.storeCreate (recOfSG b)]))) ∧
    (∀ (store : CreateRec → Except Unit StoredLead) (mailer : Option SmtpTransport)
        (sendOk : Bool) (b : Body),
      Event.mailSend ∈ (handleLeadSMTP store mailer sendOk b).2 →
      ∃ doc, store (recOfSMTP b) = Except.ok doc) ∧
    (∀ (store : CreateRec → Except Unit StoredLead) (sgKey : String)
        (sendOk : Bool) (b : Body),
      Event.mailSend ∈ (handleLeadSG store sgKey sendOk b).2 →
      ∃ doc, store (recOfSG b) = Except.ok doc) := by
  refine ⟨?_, ?_, ?_⟩
  · intro store mailer sgKey sendOk b hfail
    refine ⟨?_, ?_, ?_, ?_⟩
    · cases hm : missingConsentVariant b with
      | true => rw [smtp_eq_missing store mailer sendOk b hm]; simp
      | false =>
          cases he : emailOk b with
          | false => rw [smtp_eq_invalid store mailer sendOk b hm he]; simp
          | true =>
              rw [smtp_eq_storeFail store mailer sendOk b hm he (hfail _)]
              simp
    · cases hm : missingSG b with
      | true => rw [sg_eq_missing store sgKey sendOk b hm]; simp
      | false =>
          cases he : emailOk b with
          | false => rw [sg_eq_invalid store sgKey sendOk b hm he]; simp
          | true =>
              rw [sg_eq_storeFail store sgKey sendOk b hm he (hfail _)]
              simp
    · intro hm he
      exact smtp_eq_storeFail store mailer sendOk b hm he (hfail _)
    · intro hm he
      exact sg_eq_storeFail store sgKey sendOk b hm he (hfail _)
  · intro store mailer sendOk b hmem
    cases hm : missingConsentVariant b with
    | true =>
        rw [smtp_eq_missing store mailer sendOk b hm] at hmem
        simp at hmem
    | false =>
        cases he : emailOk b with
        | false =>
            rw [smtp_eq_invalid store mailer sendOk b hm he] at hmem
            simp at hmem
        | true =>
            cases hs : store (recOfSMTP b) with
            | error u =>
                cases u
                rw [smtp_eq_storeFail store mailer sendOk b hm he hs] at hmem
                simp at hmem
            | ok doc => exact ⟨doc, rfl⟩
  · intro store sgKey sendOk b hmem
    cases hm : missingSG b with
    | true =>
        rw [sg_eq_missing store sgKey sendOk b hm] at hmem
        simp at hmem
    | false =>
        cases he : emailOk b with
        | false =>
            rw [sg_eq_invalid store sgKey sendOk b hm he] at hmem
            simp at hmem
        | true =>
            cases hs : store (recOfSG b) with
            | error u =>
                cases u
                rw [sg_eq_storeFail store sgKey sendOk b hm he hs] at hmem
                simp at hmem
            | ok doc => exact ⟨doc, rfl⟩

/-- C1 witness: the always-failing store at the concrete Ada body. -/
theorem storeFailure_500_witness :
    handleLeadSMTP failStore (some tEx) true bAda =
      (respServerError, [.storeCreate (recOfSMTP bAda)]) ∧
    Event.mailSend ∉ (handleLeadSG failStore "SG.key" true bAda).2 := by
  have h := storeFailure_500_and_notify_only_after_create.1 failStore (some tEx)
    "SG.key" true bAda (fun r => rfl)
  exact ⟨h.2.2.1 (by decide) (by decide), h.2.1⟩

/-- C2: with a configured notifier whose transport send fails, a valid
and persisted submission still yields HTTP 201
`{ ok:true, id, mailed:false }`; the trace records exactly one store
create followed by exactly one send attempt — the send failure is
absorbed, never retried, and the stored lead is not touched again
(both mailer variants). -/
theorem sendFailure_still_201_mailed_false
    (store : CreateRec → Except Unit StoredLead) (t : SmtpTransport)
    (sgKey : String) (b : Body) (doc : StoredLead) :
    (missingConsentVariant b = false → emailOk b = true →
      store (recOfSMTP b) = .ok doc →
      handleLeadSMTP store (some t) false b =
        ({ status := 201, ok := true, id := some doc.id, mailed := some false },
         [.storeCreate (recOfSMTP b), .mailSend])) ∧
    (missingSG b = false → emailOk b = true → sgKey ≠ "" →
      store (recOfSG b) = .ok doc →
      handleLeadSG store sgKey false b =
        ({ status := 201, ok := true, id := some doc.id, mailed := some false },
         [.storeCreate (recOfSG b), .mailSend])) := by
  constructor
  · intro hm he hs
    rw [smtp_eq_ok store (some t) false b doc hm he hs]
    simp
  · intro hm he hk hs
    rw [sg_eq_ok store sgKey false b doc hm he hs]
    simp [bne_iff_ne, hk]

/-- C2 witness: transport rejection at the concrete Ada body. -/
theorem sendFailure_still_201_witness :
    handleLeadSMTP okStore (some tEx) false bAda =
      ({ status := 201, ok := true, id := some "doc-1", mailed := some false },
       [.storeCreate (recOfSMTP bAda), .mailSend]) :=
  (sendFailure_still_201_mailed_false okStore tEx "k" bAda
      { id := "doc-1", name := "Ada", email := "ada@example.com",
        phone := some "", company := some "", message := "Hello",
        consent := some true, source := "web" }).1
    (by decide) (by decide) (by rfl)

/-- C3: a missing or empty `name`, `email` or `message` — and, in the
consent-requiring variants, any `consent` other than the boolean `true`,
including truthy values such as `1` or `"true"` — yields HTTP 400
`{ ok:false, error:"Missing required fields" }` and an empty effect
trace, so no store write occurs. -/
theorem missing_fields_400_no_write
    (store : CreateRec → Except Unit StoredLead) (mailer : Option SmtpTransport)
    (sgKey : String) (sendOk : Bool) (b : Body) :
    (truthyS b.name = false ∨ truthyS b.email = false ∨ truthyS b.message = false →
      handleLeadSMTP store mailer sendOk b = (respMissing, []) ∧
      handleLeadSG store sgKey sendOk b = (respMissing, []) ∧
      handleLeadA store b = (respMissing, [])) ∧
    (b.consent ≠ JVal.bool true →
      handleLeadSMTP store mailer sendOk b = (respMissing, []) ∧
      handleLeadA store b = (respMissing, [])) := by
  constructor
  · intro h
    have hm : missingConsentVariant b = true := by
      unfold missingConsentVariant
      rcases h with h | h | h <;> simp [h]
    have hsg : missingSG b = true := by
      unfold missingSG
      rcases h with h | h | h <;> simp [h]
    exact ⟨smtp_eq_missing _ _ _ _ hm, sg_eq_missing _ _ _ _ hsg,
           a_eq_missing _ _ hm⟩
  · intro h
    have hc : JVal.isTrue b.consent = false := by
      cases hh : JVal.isTrue b.consent
      · rfl
      · exact absurd ((isTrue_iff b.consent).mp hh) h
    have hm : missingConsentVariant b = true := by
      unfold missingConsentVariant
      simp [hc]
    exact ⟨smtp_eq_missing _ _ _ _ hm, a_eq_missing _ _ hm⟩

/-- C3 witness: a body with no email, and bodies whose consent is the
number 1 and the string "true". -/
theorem missing_fields_400_witness :
    handleLeadSG okStore "k" true { name := some "Ada", message := some "Hi" } =
      (respMissing, []) ∧
    handleLeadSMTP okStore (some tEx) true
      { name := some "Ada", email := some "ada@example.com",
        message := some "Hi", consent := .num 1 } = (respMissing, []) ∧
    handleLeadA okStore
      { name := some "Ada", email := some "ada@example.com",
        message := some "Hi", consent := .str "true" } = (respMissing, []) := by
  refine ⟨?_, ?_, ?_⟩
  · exact ((missing_fields_400_no_write okStore (some tEx) "k" true
      { name := some "Ada", message := some "Hi" }).1
      (Or.inr (Or.inl rfl))).2.1
  · exact ((missing_fields_400_no_write okStore (some tEx) "k" true
      { name := some "Ada", email := some "ada@example.com",
        message := some "Hi", consent := .num 1 }).2 (by decide)).1
  · exact ((missing_fields_400_no_write okStore (some tEx) "k" true
      { name := some "Ada", email := some "ada@example.com",
        message := some "Hi", consent := .str "true" }).2 (by decide)).2

/-- C4 counterexample: an input whose email has no `@` but whose `name`
is also missing is answered `400 Missing required fields`, not
`400 Invalid email` — the required-field truthiness check runs first,
so the claim is false as universally stated. -/
theorem invalid_email_claim_cex :
    handleLeadSG okStore "k" true
      { email := some "not-an-email", message := some "Hi" } =
      (respMissing, []) ∧
    respMissing ≠ respInvalidEmail := by
  exact ⟨by decide, by decide⟩

/-- C4 (amended): provided the required-field truthiness check passes
(it is evaluated first), an email rejected by the pattern
`^[^@\s]+@[^@\s]+\.[^@\s]+$` is answered HTTP 400
`{ ok:false, error:"Invalid email" }` with an empty effect trace (no
store write) in all three variants; moreover every accepted email
contains an `@` with at least one non-`@` character before it and a `.`
somewhere after it, so an email lacking those is always rejected. -/
theorem invalid_email_400_no_write
    (store : CreateRec → Except Unit StoredLead) (mailer : Option SmtpTransport)
    (sgKey : String) (sendOk : Bool) (b : Body) :
    (missingConsentVariant b = false → emailOk b = false →
      handleLeadSMTP store mailer sendOk b = (respInvalidEmail, []) ∧
      handleLeadA store b = (respInvalidEmail, [])) ∧
    (missingSG b = false → emailOk b = false →
      handleLeadSG store sgKey sendOk b = (respInvalidEmail, [])) ∧
    (∀ e : String, emailRegexTest e = true →
      ∃ l d, e.data = l ++ '@' :: d ∧ l ≠ [] ∧ '.' ∈ d) := by
  refine ⟨?_, ?_, ?_⟩
  · intro hm he
    exact ⟨smtp_eq_invalid store mailer sendOk b hm he, a_eq_invalid store b hm he⟩
  · intro hm he
    exact sg_eq_invalid store sgKey sendOk b hm he
  · exact emailRegexTest_shape

/-- C4 witness: a valid-fields body with a dotless email is rejected,
and an accepted email exhibits the `@`-and-dot decomposition. -/
theorem invalid_email_400_witness :
    handleLeadSMTP okStore (some tEx) true
      { name := some "Ada", email := some "user@host",
        message := some "Hi", consent := .bool true } = (respInvalidEmail, []) ∧
    ∃ l d, "ada@example.com".data = l ++ '@' :: d ∧ l ≠ [] ∧ '.' ∈ d := by
  constructor
  · exact ((invalid_email_400_no_write okStore (some tEx) "k" true
      { name := some "Ada", email := some "user@host",
        message := some "Hi", consent := .bool true }).1 (by decide) (by decide)).1
  · exact (invalid_email_400_no_write okStore (some tEx) "k" true
      { name := some "Ada" }).2.2 "ada@example.com" (by decide)

/-- C5: for a valid input whose persistence succeeds, the handler
responds HTTP 201 with `ok:true` and `id` equal to the identifier of
the document the store just created; the `mailed` field is present in
the responses of the mailer variants (SMTP and SendGrid) and absent
from variant A, the variant without a notifier. -/
theorem success_201_id_matches
    (store : CreateRec → Except Unit StoredLead) (mailer : Option SmtpTransport)
    (sgKey : String) (sendOk : Bool) (b : Body) (doc : StoredLead) :
    (missingConsentVariant b = false → emailOk b = true →
      store (recOfSMTP b) = .ok doc →
      (handleLeadSMTP store mailer sendOk b).1.status = 201 ∧
      (handleLeadSMTP store mailer sendOk b).1.ok = true ∧
      (handleLeadSMTP store mailer sendOk b).1.id = some doc.id ∧
      (handleLeadSMTP store mailer sendOk b).1.mailed ≠ none) ∧
    (missingSG b = false → emailOk b = true →
      store (recOfSG b) = .ok doc →
      (handleLeadSG store sgKey sendOk b).1.status = 201 ∧
      (handleLeadSG store sgKey sendOk b).1.ok = true ∧
      (handleLeadSG store sgKey sendOk b).1.id = some doc.id ∧
      (handleLeadSG store sgKey sendOk b).1.mailed ≠ none) ∧
    (missingConsentVariant b = false → emailOk b = true →
      store (recOfA b) = .ok doc →
      handleLeadA store b =
        ({ status := 201, ok := true, id := some doc.id },
         [.storeCreate (recOfA b)]) ∧
      (handleLeadA store b).1.mailed = none) := by
  refine ⟨?_, ?_, ?_⟩
  · intro hm he hs
    rw [smtp_eq_ok store mailer sendOk b doc hm he hs]
    cases mailer <;> simp
  · intro hm he hs
    rw [sg_eq_ok store sgKey sendOk b doc hm he hs]
    cases hk : sgKey != "" <;> simp
  · intro hm he hs
    have h := a_eq_ok store b doc hm he hs
    rw [h]
    exact ⟨rfl, rfl⟩

/-- C5 witness: the Ada body against a concrete acknowledging store in
all three variants. -/
theorem success_201_witness :
    (handleLeadSMTP okStore (some tEx) true bAda).1.id = some "doc-1" ∧
    (handleLeadSG okStore "k" true bAda).1.mailed ≠ none ∧
    (handleLeadA okStore bAda).1.mailed = none := by
  refine ⟨?_, ?_, ?_⟩
  · exact ((success_201_id_matches okStore (some tEx) "k" true bAda
      { id := "doc-1", name := "Ada", email := "ada@example.com",
        phone := some "", company := some "", message := "Hello",
        consent := some true, source := "web" }).1
      (by decide) (by decide) (by rfl)).2.2.1
  · exact ((success_201_id_matches okStore (some tEx) "k" true bAda
      { id := "doc-1", name := "Ada", email := "ada@example.com",
        phone := some "", company := some "", message := "Hello",
        consent := none, source := "web" }).2.1
      (by decide) (by decide) (by rfl)).2.2.2
  · exact ((success_201_id_matches okStore (some tEx) "k" true bAda
      { id := "doc-1", name := "Ada", email := "ada@example.com",
        phone := none, company := none, message := "Hello",
        consent := some true, source := "web" }).2.2
      (by decide) (by decide) (by rfl)).2

/-- C6: in both mailer variants the HTML rendering interpolates the
message as `nl2br(escapeHtml(message))` — escaping first, newline
conversion second — while the plain-text rendering contains the message
verbatim (its newlines untouched); `escapeHtml` maps each of the five
special characters to its entity, so `<script>` or `&` in a message
appears only as entities, and the escaped output never contains a raw
angle bracket. -/
theorem notification_rendering_escapes :
    (∀ b iso, renderHtmlSMTP b iso =
      htmlBeforeMsgSMTP b ++ nl2br (escapeHtml (b.message.getD "")) ++
      htmlAfterMsgSMTP b iso) ∧
    (∀ b iso, renderTextSMTP b iso =
      textBeforeMsgSMTP b ++ b.message.getD "" ++ textAfterMsgSMTP b iso) ∧
    (∀ b iso, renderHtmlSG b iso =
      htmlBeforeMsgSG b ++ nl2br (escapeHtml (b.message.getD "")) ++
      htmlAfterMsgSG b iso) ∧
    (∀ b iso, renderTextSG b iso =
      textBeforeMsgSG b ++ b.message.getD "" ++ textAfterMsgSG b iso) ∧
    escapeHtml "&" = "&amp;" ∧ escapeHtml "<" = "&lt;" ∧
    escapeHtml ">" = "&gt;" ∧ escapeHtml "\"" = "&quot;" ∧
    escapeHtml "\x27" = "&#039;" ∧
    escapeHtml "<script>" = "&lt;script&gt;" ∧
    escapeHtml "a & b" = "a &amp; b" ∧
    escapeHtml "line1\nline2" = "line1\nline2" ∧
    nl2br (escapeHtml "line1\nline2") = "line1<br/>line2" ∧
    (∀ m, '<' ∉ (escapeHtml m).data ∧ '>' ∉ (escapeHtml m).data) := by
  refine ⟨?_, ?_, ?_, ?_, by decide, by decide, by decide, by decide, by decide,
    by decide, by decide, by decide, by decide, escapeHtml_no_angle⟩
  · intro b iso
    simp [renderHtmlSMTP, htmlBeforeMsgSMTP, htmlAfterMsgSMTP, String.append_assoc]
  · intro b iso
    simp [renderTextSMTP, textBeforeMsgSMTP, textAfterMsgSMTP, String.append_assoc]
  · intro b iso
    simp [renderHtmlSG, htmlBeforeMsgSG, htmlBeforeMsgSMTP, htmlAfterMsgSG,
      String.append_assoc]
  · intro b iso
    simp [renderTextSG, textBeforeMsgSG, textBeforeMsgSMTP, textAfterMsgSG,
      String.append_assoc]

/-- C7: an unconfigured transport — missing/empty SMTP host, user or
pass, a non-numeric SMTP port, or a missing/empty SendGrid key — means
no send attempt is made: a valid persisted submission still gets HTTP
201 with `mailed:false`, and the trace holds only the store create. -/
theorem unconfigured_notifier_no_send
    (store : CreateRec → Except Unit StoredLead) (sendOk : Bool) (b : Body)
    (doc : StoredLead) :
    (∀ host portEnv user pass, truthyS host = false →
      buildTransport host portEnv user pass = none) ∧
    (∀ host portEnv user pass, truthyS user = false →
      buildTransport host portEnv user pass = none) ∧
    (∀ host portEnv user pass, truthyS pass = false →
      buildTransport host portEnv user pass = none) ∧
    (∀ host portEnv user pass, parseInt10 (orStr portEnv "587") = none →
      buildTransport host portEnv user pass = none) ∧
    (missingConsentVariant b = false → emailOk b = true →
      store (recOfSMTP b) = .ok doc →
      handleLeadSMTP store none sendOk b =
        ({ status := 201, ok := true, id := some doc.id, mailed := some false },
         [.storeCreate (recOfSMTP b)])) ∧
    (∀ keyEnv : Option String, sgKeyOf keyEnv = "" →
      missingSG b = false → emailOk b = true →
      store (recOfSG b) = .ok doc →
      handleLeadSG store (sgKeyOf keyEnv) sendOk b =
        ({ status := 201, ok := true, id := some doc.id, mailed := some false },
         [.storeCreate (recOfSG b)])) := by
  refine ⟨?_, ?_, ?_, ?_, ?_, ?_⟩
  · intro host portEnv user pass h
    unfold buildTransport
    simp [h]
  · intro host portEnv user pass h
    unfold buildTransport
    simp [h]
  · intro host portEnv user pass h
    unfold buildTransport
    simp [h]
  · intro host portEnv user pass h
    unfold buildTransport
    simp [h]
  · intro hm he hs
    rw [smtp_eq_ok store none sendOk b doc hm he hs]
    simp
  · intro keyEnv hk hm he hs
    rw [sg_eq_ok store (sgKeyOf keyEnv) sendOk b doc hm he hs, hk]
    simp

/-- C7 witness: missing host, non-numeric port, and empty SendGrid key
at the concrete Ada body. -/
theorem unconfigured_notifier_witness :
    buildTransport none (some "587") (some "u") (some "p") = none ∧
    buildTransport (some "smtp.example.com") (some "abc") (some "u") (some "p") = none ∧
    handleLeadSMTP okStore none true bAda =
      ({ status := 201, ok := true, id := some "doc-1", mailed := some false },
       [.storeCreate (recOfSMTP bAda)]) ∧
    handleLeadSG okStore (sgKeyOf none) true bAda =
      ({ status := 201, ok := true, id := some "doc-1", mailed := some false },
       [.storeCreate (recOfSG bAda)]) := by
  have hsmtp := unconfigured_notifier_no_send okStore true bAda
    { id := "doc-1", name := "Ada", email := "ada@example.com",
      phone := some "", company := some "", message := "Hello",
      consent := some true, source := "web" }
  have hsg := unconfigured_notifier_no_send okStore true bAda
    { id := "doc-1", name := "Ada", email := "ada@example.com",
      phone := some "", company := some "", message := "Hello",
      consent := none, source := "web" }
  refine ⟨?_, ?_, ?_, ?_⟩
  · exact hsmtp.1 none (some "587") (some "u") (some "p") rfl
  · exact hsmtp.2.2.2.1 (some "smtp.example.com") (some "abc") (some "u")
      (some "p") (by decide)
  · exact hsmtp.2.2.2.2.1 (by decide) (by decide) (by rfl)
  · exact hsg.2.2.2.2.2 none rfl (by decide) (by decide) (by rfl)

/-- C8 counterexample: for a valid submission whose name has
surrounding spaces and whose email has upper-case letters, the record
passed to the store keeps them verbatim — the handler neither trims nor
lower-cases — and variant A passes an absent phone as absent rather
than as `""`; the record passed to the store is therefore not the
normalized lead the claim describes. -/
theorem record_passed_raw_cex :
    (handleLeadSMTP okStore (some tEx) true
        { name := some " Ada ", email := some "Ada@Example.com",
          message := some "Hello", consent := .bool true }).2 =
      [.storeCreate
        { name := some " Ada ", email := some "Ada@Example.com",
          phone := some "", company := some "", message := some "Hello",
          consent := some true, source := some "web" }, .mailSend] ∧
    some " Ada " ≠ some (jsTrim " Ada ") ∧
    some "Ada@Example.com" ≠ some (jsLower (jsTrim "Ada@Example.com")) ∧
    (recOfA bAda).phone ≠ some "" := by
  exact ⟨by decide, by decide, by decide, by decide⟩

/-- C8 (amended): the record passed to the store carries `name`,
`email` and `message` verbatim; the mailer-variant handlers default an
absent `phone`/`company` to `""` and an absent `source` to `"web"`,
while variant A passes every field raw; trimming, the lower-casing of
`email`, and (for records without a source) the `"web"` default are
applied by the store's schema at creation time. -/
theorem store_applies_normalization
    (store : CreateRec → Except Unit StoredLead) (mailer : Option SmtpTransport)
    (sendOk : Bool) (b : Body) :
    recOfSMTP b =
      { name := b.name, email := b.email, phone := some (orStr b.phone ""),
        company := some (orStr b.company ""), message := b.message,
        consent := some true, source := some (orStr b.source "web") } ∧
    recOfSG b =
      { name := b.name, email := b.email, phone := some (orStr b.phone ""),
        company := some (orStr b.company ""), message := b.message,
        consent := none, source := some (orStr b.source "web") } ∧
    recOfA b =
      { name := b.name, email := b.email, phone := b.phone,
        company := b.company, message := b.message,
        consent := match b.consent with | .bool v => some v | _ => none,
        source := b.source } ∧
    (missingConsentVariant b = false → emailOk b = true →
      ∀ doc, store (recOfSMTP b) = .ok doc →
        (handleLeadSMTP store mailer sendOk b).2.head? =
          some (.storeCreate (recOfSMTP b))) ∧
    (∀ req newId r doc, mongooseCreate req newId r = .ok doc →
      doc.name = jsTrim (r.name.getD "") ∧
      doc.email = jsLower (jsTrim (r.email.getD "")) ∧
      doc.message = jsTrim (r.message.getD "") ∧
      (r.source = none → doc.source = "web")) := by
  refine ⟨rfl, rfl, rfl, ?_, ?_⟩
  · intro hm he doc hs
    rw [smtp_eq_ok store mailer sendOk b doc hm he hs]
    cases mailer <;> simp
  · intro req newId r doc h
    obtain ⟨n, e, m, p, c, h1, h2, h3, h4, h5, hdoc⟩ :=
      mongooseCreate_ok_parts req newId r doc h
    subst hdoc
    refine ⟨(reqStr_ok _ _ _ h1).1, reqEmail_ok _ _ _ h2,
      (reqStr_ok _ _ _ h3).1, ?_⟩
    intro hsrc
    simp [sourceField, hsrc]

/-- C8 witness: the raw record reaches the store for the Ada body, and
an untrimmed mixed-case record is normalized inside the store. -/
theorem store_applies_normalization_witness :
    (handleLeadSMTP okStore (some tEx) true bAda).2.head? =
      some (.storeCreate (recOfSMTP bAda)) ∧
    ("Ada" : String) = jsTrim ((some " Ada ").getD "") ∧
    ("ada@example.com" : String) = jsLower (jsTrim ((some " Ada@Example.COM ").getD "")) := by
  have h := store_applies_normalization okStore (some tEx) true bAda
  have h2 := (store_applies_normalization okStore (some tEx) true bAda).2.2.2.2
    true "id9"
    { name := some " Ada ", email := some " Ada@Example.COM ",
      phone := some "", company := some "", message := some " Hello ",
      consent := some true, source := none }
    { id := "id9", name := "Ada", email := "ada@example.com",
      phone := some "", company := some "", message := "Hello",
      consent := some true, source := "web" } (by rfl)
  exact ⟨h.2.2.2.1 (by decide) (by decide) _ rfl, h2.1, h2.2.1⟩

/-- C9: with `ALLOWED_ORIGINS` unset or set to the empty string, the
parsed allow-list is empty and the cors `origin` callback of the
variants without built-in allow patterns accepts every origin — the
gate degrades to allow-all, not deny-all. -/
theorem cors_empty_allowlist_allows_all (env : Option String)
    (h : env = none ∨ env = some "") :
    parseAllowedOrigins (env.getD "") = [] ∧
    ∀ o : String,
      corsOriginAllows (parseAllowedOrigins (env.getD "")) (some o) = true := by
  have he : env.getD "" = "" := by rcases h with h | h <;> simp [h]
  rw [he]
  refine ⟨by decide, ?_⟩
  intro o
  have hp : parseAllowedOrigins "" = [] := by decide
  rw [hp]
  simp [corsOriginAllows]

/-- C9 witness: with the variable unset, an arbitrary third-party
origin is accepted. -/
theorem cors_allows_all_witness :
    corsOriginAllows (parseAllowedOrigins ((none : Option String).getD ""))
      (some "https://attacker.example") = true :=
  (cors_empty_allowlist_allows_all none (Or.inl rfl)).2 "https://attacker.example"

/-- C10 counterexample: a whitespace-only `email` passes the truthiness
check like any other field, but it is stopped by the email pattern, so
the caller gets `400 Invalid email` — not the claimed 500 — and create
is never attempted. -/
theorem whitespace_email_400_cex :
    truthyS (some " ") = true ∧
    handleLeadSMTP (mongooseCreate true "id-1") (some tEx) true
      { name := some "Ada", email := some " ", message := some "Hi",
        consent := .bool true } = (respInvalidEmail, []) ∧
    respInvalidEmail ≠ respServerError := by
  exact ⟨by decide, by decide, by decide⟩

/-- C10 (amended): when `name` or `message` is whitespace-only (the
other fields valid), the truthiness check passes but the schema's
trim-plus-required constraint rejects the create, so the caller gets
HTTP 500 `{ ok:false, error:"Server error" }` rather than a 400
validation error; a whitespace-only `email`, by contrast, is caught
earlier by the email pattern (whose classes exclude whitespace) and
yields `400 Invalid email` with no create attempt. -/
theorem whitespace_field_500 (newId : String) (mailer : Option SmtpTransport)
    (sendOk : Bool) (b : Body) :
    (missingConsentVariant b = false → emailOk b = true →
      ((∃ s, b.name = some s ∧ jsTrim s = "") ∨
       (∃ s, b.message = some s ∧ jsTrim s = "")) →
      handleLeadSMTP (mongooseCreate true newId) mailer sendOk b =
        (respServerError, [.storeCreate (recOfSMTP b)])) ∧
    (missingConsentVariant b = false →
      (∃ s c, b.email = some s ∧ c ∈ s.data ∧ isJsWs c = true) →
      handleLeadSMTP (mongooseCreate true newId) mailer sendOk b =
        (respInvalidEmail, [])) := by
  constructor
  · intro hm he hws
    have hcreate : mongooseCreate true newId (recOfSMTP b) = .error () := by
      rcases hws with ⟨s, hbs, hts⟩ | ⟨s, hbs, hts⟩
      · apply mongooseCreate_nameFail
        show reqStr (recOfSMTP b).name 100 = .error ()
        simp only [recOfSMTP]
        rw [hbs]
        simp [reqStr, hts]
      · apply mongooseCreate_msgFail
        show reqStr (recOfSMTP b).message 5000 = .error ()
        simp only [recOfSMTP]
        rw [hbs]
        simp [reqStr, hts]
    exact smtp_eq_storeFail _ mailer sendOk b hm he hcreate
  · intro hm hws
    obtain ⟨s, c, hbs, hcs, hcw⟩ := hws
    have he : emailOk b = false := by
      unfold emailOk
      rw [hbs]
      cases ht : emailRegexTest s with
      | false => exact ht
      | true =>
          have hnw := emailRegexTest_no_ws s ht c hcs
          rw [hcw] at hnw
          exact absurd hnw (by decide)
    exact smtp_eq_invalid _ mailer sendOk b hm he

/-- C10 witness: a whitespace-only name yields the 500, a
whitespace-containing email the 400. -/
theorem whitespace_field_500_witness :
    handleLeadSMTP (mongooseCreate true "id-1") (some tEx) true
      { name := some " ", email := some "ada@example.com",
        message := some "Hi", consent := .bool true } =
      (respServerError,
       [.storeCreate (recOfSMTP
         { name := some " ", email := some "ada@example.com",
           message := some "Hi", consent := .bool true })]) ∧
    handleLeadSMTP (mongooseCreate true "id-1") (some tEx) true
      { name := some "Ada", email := some "a b@c.d",
        message := some "Hi", consent := .bool true } = (respInvalidEmail, []) := by
  constructor
  · exact (whitespace_field_500 "id-1" (some tEx) true
      { name := some " ", email := some "ada@example.com",
        message := some "Hi", consent := .bool true }).1
      (by decide) (by decide) (Or.inl ⟨" ", rfl, by decide⟩)
  · exact (whitespace_field_500 "id-1" (some tEx) true
      { name := some "Ada", email := some "a b@c.d",
        message := some "Hi", consent := .bool true }).2
      (by decide) ⟨"a b@c.d", ' ', rfl, by decide, by decide⟩

end DataNetPlus
